import Mathlib

/-!
Verification of the MDAnalysis unit-conversion module
(`MDAnalysis/core/units.py`) and of the H5MD reader stub
(`package/MDAnalysis/coordinates/H5MD.py`).

The Python module stores, per physical quantity type (`length`, `density`,
`time`), a dictionary from unit name to the scale factor relative to that
type's base unit, builds a reverse index `unit_types` from unit name to
quantity type, and exposes `get_conversion_factor` and `convert`.

Embedding conventions:
* Python dictionaries with string keys become association lists
  `List (String × _)` in insertion order; `dictInsert` models dict
  assignment (update in place, else append) and `List.lookup` models
  subscripting.
* Python floats become exact rationals `ℚ`: every numeric literal of the
  source is carried over verbatim and every arithmetic operation of the
  source becomes the corresponding exact operation on `ℚ`.
* Python exceptions become the error type `PyError`, one constructor per
  raise site (plus the implicit `KeyError` of a failed dict subscript and
  the implicit `ZeroDivisionError` of `/`), each constructor carrying the
  data that the Python exception message interpolates.  Fallible functions
  return `Except PyError ℚ`.
* All definitions are pure, matching the source: the module builds its
  tables once at import time and never mutates them afterwards, so the
  registry appears here as constant definitions.
-/

namespace units

/-- `lengthUnit_factor` from the source:
`{'Angstrom': 1.0, 'A': 1.0, 'Å': 1.0, 'nm': 1.0/10, 'nanometer': 1.0/10}`. -/
def lengthUnit_factor : List (String × ℚ) :=
  [("Angstrom", 1.0), ("A", 1.0), ("Å", 1.0),
   ("nm", 1.0/10), ("nanometer", 1.0/10)]

/-- Avogadro's constant as in the source: `N_Avogadro = 6.02214179e+23`. -/
def N_Avogadro : ℚ := 6.02214179e23

/-- The `water` dictionary from the source: reference water densities in
g cm**-3 (per model) and the molar mass in g mol**-1. -/
def water : List (String × ℚ) :=
  [("exp", 0.997), ("SPC", 0.985), ("TIP3P", 1.002), ("TIP4P", 1.001),
   ("MolarMass", 18.016)]

/-- Python `water[k]`.  Total here because every key used below is present;
a missing key would give the (never used) default `0`. -/
def waterAt (k : String) : ℚ := (water.lookup k).getD 0

/-- `densityUnit_factor` from the source, every entry the same literal
expression as in the Python dict display. -/
def densityUnit_factor : List (String × ℚ) :=
  [("Angstrom^{-3}", 1/1.0), ("A^{-3}", 1/1.0), ("Å^{-3}", 1/1.0),
   ("nm^{-3}", 1/1e-3), ("nanometer^{-3}", 1/1e-3),
   ("Molar", 1/(1e-27*N_Avogadro)),
   ("SPC",   1/(1e-24*N_Avogadro*(waterAt "SPC")  / (waterAt "MolarMass"))),
   ("TIP3P", 1/(1e-24*N_Avogadro*(waterAt "TIP3P")/ (waterAt "MolarMass"))),
   ("TIP4P", 1/(1e-24*N_Avogadro*(waterAt "TIP4P")/ (waterAt "MolarMass"))),
   ("water", 1/(1e-24*N_Avogadro*(waterAt "exp")  / (waterAt "MolarMass")))]

/-- `timeUnit_factor` from the source:
`{'ps': 1/1.0, 'ns': 1/1e3, 'second': 1/1e12, 'AKMA': 1/4.888821e-2}`. -/
def timeUnit_factor : List (String × ℚ) :=
  [("ps", 1/1.0), ("ns", 1/1e3), ("second", 1/1e12),
   ("AKMA", 1/4.888821e-2)]

/-- `conversion_factor = {'length': lengthUnit_factor,
'density': densityUnit_factor, 'time': timeUnit_factor}`. -/
def conversion_factor : List (String × List (String × ℚ)) :=
  [("length", lengthUnit_factor),
   ("density", densityUnit_factor),
   ("time", timeUnit_factor)]

/-- Python dict assignment `d[k] = v`: update the binding in place if the
key is present, else append it (insertion order preserved). -/
def dictInsert {α : Type} (d : List (String × α)) (k : String) (v : α) :
    List (String × α) :=
  match d with
  | [] => [(k, v)]
  | (k', v') :: rest =>
      if k' = k then (k, v) :: rest else (k', v') :: dictInsert rest k v

/-- The generated reverse index, built exactly like the source loop:
`for utype,ufactor in conversion_factor.items(): for unit in ufactor.keys():
unit_types[unit] = utype` — so a unit name occurring in a later table would
silently overwrite the type recorded for it by an earlier table. -/
def unit_types : List (String × String) :=
  conversion_factor.foldl
    (fun acc p => p.2.foldl (fun acc2 q => dictInsert acc2 q.1 p.1) acc) []

/-- The Python exceptions the module can raise, one constructor per raise
site, carrying the data its message interpolates:
* `keyError k`: the implicit `KeyError(k)` of a failed dict subscript in
  `get_conversion_factor`, carrying only the missing key;
* `unknownUnit known u1 u2`: `ValueError("units must be one of %r, not %r
  or %r" % (unit_types.keys(), u1, u2))` raised by `convert` — the spec's
  `UnknownUnitError`, carrying the known unit names and both offending
  names;
* `incompatibleUnits ut1 ut2`: `ValueError("Cannot convert between unit
  types %(ut1)s --> %(ut2)s" % vars())` raised by `convert` — the spec's
  `IncompatibleUnitsError`, carrying both quantity types;
* `zeroDivision`: the implicit `ZeroDivisionError` of `/`. -/
inductive PyError : Type
  | keyError (key : String)
  | unknownUnit (known : List String) (u1 u2 : String)
  | incompatibleUnits (ut1 ut2 : String)
  | zeroDivision

/-- The set of known unit names carried in an error's payload, when any:
only `convert`'s "units must be one of …" `ValueError` interpolates
`unit_types.keys()`; a `KeyError` carries just the missing key. -/
def errorKnownNames : PyError → Option (List String)
  | .unknownUnit known _ _ => some known
  | _ => none

/-- `get_conversion_factor(unit_type, u1, u2)`:
`return conversion_factor[unit_type][u2] / conversion_factor[unit_type][u1]`.

Python evaluates the left operand of `/` first, so a missing `unit_type`
raises `KeyError(unit_type)` first of all, then a missing `u2` raises
`KeyError(u2)` before `u1` is ever looked up; a zero divisor would raise
`ZeroDivisionError`. -/
def get_conversion_factor (unit_type u1 u2 : String) : Except PyError ℚ :=
  match conversion_factor.lookup unit_type with
  | none => .error (.keyError unit_type)
  | some table =>
    match table.lookup u2 with
    | none => .error (.keyError u2)
    | some f2 =>
      match table.lookup u1 with
      | none => .error (.keyError u1)
      | some f1 =>
        if f1 = 0 then .error .zeroDivision else .ok (f2 / f1)

/-- `convert(x, u1, u2)`: resolve `ut1 = unit_types[u1]` and
`ut2 = unit_types[u2]` (the `try/except KeyError` turns either failed
lookup into the "units must be one of …" `ValueError`), raise the
"Cannot convert …" `ValueError` when `ut1 != ut2`, and otherwise
`return x * get_conversion_factor(ut1, u1, u2)`. -/
def convert (x : ℚ) (u1 u2 : String) : Except PyError ℚ :=
  match unit_types.lookup u1, unit_types.lookup u2 with
  | some ut1, some ut2 =>
      if ut1 ≠ ut2 then .error (.incompatibleUnits ut1 ut2)
      else
        match get_conversion_factor ut1 u1 u2 with
        | .error e => .error e
        | .ok f => .ok (x * f)
  | _, _ => .error (.unknownUnit (unit_types.map Prod.fst) u1 u2)

/-- The scale factor stored for unit `u` under quantity type `T`
(`conversion_factor[T][u]` as a partial lookup). -/
def lookupFactor (T u : String) : Option ℚ :=
  match conversion_factor.lookup T with
  | none => none
  | some tab => tab.lookup u

end units

namespace H5MD

/-- The state of `H5MDReader` set up by `__init__`: the filename, the
optional atom count, the (initially unset) frame count, and the current
timestep.  `base.Reader`, `base.Timestep` and the `h5py` file object are
external to this excerpt, so the timestep type is a parameter and the
external file handle carries no data relevant to `_read_frame`. -/
structure H5MDReader (Ts : Type) : Type where
  filename : String
  n_atoms : Option Nat
  n_frames : Option Nat
  ts : Ts

/-- Python's `TypeError`, carrying its message. -/
inductive H5MDError : Type
  | typeError (msg : String)

/-- `self.__class__.__name__` for an `H5MDReader` instance. -/
def H5MDReader.className : String := "H5MDReader"

/-- The message of the `TypeError` raised by `_read_frame`:
`"{0} does not support direct frame indexing.".format(self.__class__.__name__)`
— the single placeholder at the head of the template replaced by the class
name. -/
def readFrameMessage : String :=
  H5MDReader.className ++ " does not support direct frame indexing."

/-- `H5MDReader._read_frame(self, frame)`: raises the `TypeError`
unconditionally, before touching any state, so the reader state is
returned unchanged beside the error and no timestep is produced. -/
def H5MDReader._read_frame {Ts : Type} (self : H5MDReader Ts) (frame : Int) :
    H5MDReader Ts × Except H5MDError Ts :=
  (self, Except.error (H5MDError.typeError readFrameMessage))

end H5MD

namespace units

/-- A successful association-list lookup exhibits a member of the list. -/
lemma lookup_mem {β : Type} {l : List (String × β)} {k : String} {v : β}
    (h : l.lookup k = some v) : (k, v) ∈ l := by
  induction l with
  | nil => simp [List.lookup] at h
  | cons p rest ih =>
      obtain ⟨k', v'⟩ := p
      rw [List.lookup_cons] at h
      split at h
      · rename_i hbeq
        obtain rfl : k = k' := eq_of_beq hbeq
        obtain rfl : v' = v := Option.some.inj h
        exact List.mem_cons_self _ _
      · exact List.mem_cons_of_mem _ (ih h)

/-- The reverse index evaluates to the 19 registered unit names, scanned
in table order (length, then density, then time). -/
lemma unit_types_eq :
    unit_types =
      [("Angstrom", "length"), ("A", "length"), ("Å", "length"),
       ("nm", "length"), ("nanometer", "length"),
       ("Angstrom^{-3}", "density"), ("A^{-3}", "density"),
       ("Å^{-3}", "density"), ("nm^{-3}", "density"),
       ("nanometer^{-3}", "density"), ("Molar", "density"),
       ("SPC", "density"), ("TIP3P", "density"), ("TIP4P", "density"),
       ("water", "density"),
       ("ps", "time"), ("ns", "time"), ("second", "time"),
       ("AKMA", "time")] := rfl

lemma waterAt_exp : waterAt "exp" = 0.997 := rfl

lemma waterAt_SPC : waterAt "SPC" = 0.985 := rfl

lemma waterAt_TIP3P : waterAt "TIP3P" = 1.002 := rfl

lemma waterAt_TIP4P : waterAt "TIP4P" = 1.001 := rfl

lemma waterAt_MolarMass : waterAt "MolarMass" = 18.016 := rfl

/-- Every scale factor stored in any table of the registry is nonzero. -/
lemma factors_ne_zero : ∀ p ∈ conversion_factor, ∀ q ∈ p.2, q.2 ≠ 0 := by
  intro p hp q hq
  simp only [conversion_factor, List.mem_cons, List.not_mem_nil, or_false]
    at hp
  rcases hp with rfl | rfl | rfl <;>
    simp only [lengthUnit_factor, densityUnit_factor, timeUnit_factor,
      List.mem_cons, List.not_mem_nil, or_false] at hq <;>
    rcases hq with rfl | rfl | rfl | rfl | rfl | rfl | rfl | rfl | rfl | rfl
      <;>
    norm_num [N_Avogadro, waterAt_exp, waterAt_SPC, waterAt_TIP3P,
      waterAt_TIP4P, waterAt_MolarMass]

/-- Unpack a successful `lookupFactor`: the quantity type's table exists,
holds the unit, and the stored factor is nonzero. -/
lemma lookupFactor_elim (T u : String) (f : ℚ)
    (h : lookupFactor T u = some f) :
    ∃ tab : List (String × ℚ), conversion_factor.lookup T = some tab ∧
      tab.lookup u = some f ∧ f ≠ 0 := by
  unfold lookupFactor at h
  cases hT : conversion_factor.lookup T with
  | none => rw [hT] at h; exact absurd h (by simp)
  | some tab =>
      rw [hT] at h
      dsimp only at h
      exact ⟨tab, rfl, h,
        factors_ne_zero (T, tab) (lookup_mem hT) (u, f) (lookup_mem h)⟩

/-- Evaluation of `get_conversion_factor` on a registered triple: with the
table present and both units bound, it returns exactly
`factor[u2] / factor[u1]`. -/
lemma gcf_eval (t u1 u2 : String) (tab : List (String × ℚ)) (f1 f2 : ℚ)
    (ht : conversion_factor.lookup t = some tab)
    (h1 : tab.lookup u1 = some f1) (h2 : tab.lookup u2 = some f2)
    (hf1 : f1 ≠ 0) :
    get_conversion_factor t u1 u2 = Except.ok (f2 / f1) := by
  unfold get_conversion_factor
  rw [ht]
  dsimp only
  rw [h2]
  dsimp only
  rw [h1]
  dsimp only
  rw [if_neg hf1]

/-- Evaluation of `convert` on the success path: both reverse-index
lookups agree, so the result is `x` times the conversion factor. -/
lemma convert_ok (x f : ℚ) (u1 u2 t : String)
    (h1 : unit_types.lookup u1 = some t)
    (h2 : unit_types.lookup u2 = some t)
    (hg : get_conversion_factor t u1 u2 = Except.ok f) :
    convert x u1 u2 = Except.ok (x * f) := by
  unfold convert
  rw [h1, h2]
  simp [hg]

/-- Soundness of each entry of the reverse index: the mapped quantity
type's table binds the unit name, with a nonzero factor. -/
lemma unit_types_entries_ok :
    ∀ p ∈ unit_types,
      ∃ (tab : List (String × ℚ)) (f : ℚ),
        conversion_factor.lookup p.2 = some tab ∧
        tab.lookup p.1 = some f ∧ f ≠ 0 := by
  intro p hp
  rw [unit_types_eq] at hp
  fin_cases hp <;>
    exact ⟨_, _, rfl, rfl, by norm_num [N_Avogadro, waterAt_exp,
      waterAt_SPC, waterAt_TIP3P, waterAt_TIP4P, waterAt_MolarMass]⟩

/-- Soundness of the reverse index: a unit name mapped to quantity type
`t` by `unit_types` is bound in `t`'s table, with a nonzero factor. -/
lemma unit_types_sound (u t : String) (h : unit_types.lookup u = some t) :
    ∃ (tab : List (String × ℚ)) (f : ℚ),
      conversion_factor.lookup t = some tab ∧ tab.lookup u = some f ∧
      f ≠ 0 :=
  unit_types_entries_ok (u, t) (lookup_mem h)

end units

namespace units

/-- C5: Identity — for every quantity type `T` and every unit name `u`
registered in `T`'s table, `factor(T, u, u)` is exactly `1.0`
(`get_conversion_factor` returns `Except.ok 1`). -/
theorem factor_identity :
    ∀ (T u : String) (f : ℚ), lookupFactor T u = some f →
      get_conversion_factor T u u = Except.ok 1 := by
  intro T u f h
  obtain ⟨tab, ht, hu, hf⟩ := lookupFactor_elim T u f h
  rw [gcf_eval T u u tab f f ht hu hu hf, div_self hf]

/-- Witness for C5 at the concrete registered unit `AKMA` of `time`. -/
theorem factor_identity_witness :
    get_conversion_factor "time" "AKMA" "AKMA" = Except.ok 1 :=
  factor_identity "time" "AKMA" (1/4.888821e-2) rfl

/-- C6: Round-trip — for every quantity type `T` and units `u1`, `u2`
registered in `T`'s table, `factor(T,u1,u2) * factor(T,u2,u1)` equals `1.0`
exactly, hence in particular within a relative tolerance of `1e-12`. -/
theorem factor_round_trip :
    ∀ (T u1 u2 : String) (f1 f2 : ℚ),
      lookupFactor T u1 = some f1 → lookupFactor T u2 = some f2 →
      ∃ r1 r2 : ℚ, get_conversion_factor T u1 u2 = Except.ok r1 ∧
        get_conversion_factor T u2 u1 = Except.ok r2 ∧
        r1 * r2 = 1 ∧ |r1 * r2 - 1| ≤ 1e-12 := by
  intro T u1 u2 f1 f2 h1 h2
  obtain ⟨tab, ht, hu1, hf1⟩ := lookupFactor_elim T u1 f1 h1
  obtain ⟨tab2, ht2, hu2, hf2⟩ := lookupFactor_elim T u2 f2 h2
  rw [ht] at ht2
  obtain rfl := Option.some.inj ht2
  have hprod : f2 / f1 * (f1 / f2) = 1 := by
    rw [div_mul_div_comm, mul_comm f2 f1, div_self (mul_ne_zero hf1 hf2)]
  refine ⟨f2 / f1, f1 / f2,
    gcf_eval T u1 u2 tab f1 f2 ht hu1 hu2 hf1,
    gcf_eval T u2 u1 tab f2 f1 ht hu2 hu1 hf2, hprod, ?_⟩
  rw [hprod]
  norm_num

/-- Witness for C6 at the concrete pair `Angstrom`, `nm` of `length`. -/
theorem factor_round_trip_witness :
    ∃ r1 r2 : ℚ,
      get_conversion_factor "length" "Angstrom" "nm" = Except.ok r1 ∧
      get_conversion_factor "length" "nm" "Angstrom" = Except.ok r2 ∧
      r1 * r2 = 1 ∧ |r1 * r2 - 1| ≤ 1e-12 :=
  factor_round_trip "length" "Angstrom" "nm" 1.0 (1.0/10) rfl rfl

/-- C1: for every numeric value `x` and unit names `u1`, `u2` registered
under the same quantity type `T`, `get_conversion_factor T u1 u2` returns
exactly `scale[T][u2] / scale[T][u1]` (the pivot through the base unit)
and `convert x u1 u2` returns `x` times that factor.  Both are pure
functions of the static tables, so no side effects are possible. -/
theorem convert_and_factor_pivot_formula :
    ∀ (x : ℚ) (u1 u2 T : String),
      unit_types.lookup u1 = some T → unit_types.lookup u2 = some T →
      ∃ f1 f2 : ℚ, lookupFactor T u1 = some f1 ∧
        lookupFactor T u2 = some f2 ∧
        get_conversion_factor T u1 u2 = Except.ok (f2 / f1) ∧
        convert x u1 u2 = Except.ok (x * (f2 / f1)) := by
  intro x u1 u2 T h1 h2
  obtain ⟨tab, f1, ht, hu1, hf1⟩ := unit_types_sound u1 T h1
  obtain ⟨tab2, f2, ht2, hu2, hf2⟩ := unit_types_sound u2 T h2
  rw [ht] at ht2
  obtain rfl := Option.some.inj ht2
  have hg := gcf_eval T u1 u2 tab f1 f2 ht hu1 hu2 hf1
  refine ⟨f1, f2, ?_, ?_, hg, convert_ok x (f2 / f1) u1 u2 T h1 h2 hg⟩
  · unfold lookupFactor
    rw [ht]
    exact hu1
  · unfold lookupFactor
    rw [ht]
    exact hu2

/-- Witness for C1 at `convert(10, 'Angstrom', 'nm')`. -/
theorem convert_and_factor_pivot_formula_witness :
    ∃ f1 f2 : ℚ, lookupFactor "length" "Angstrom" = some f1 ∧
      lookupFactor "length" "nm" = some f2 ∧
      get_conversion_factor "length" "Angstrom" "nm" = Except.ok (f2 / f1) ∧
      convert 10 "Angstrom" "nm" = Except.ok (10 * (f2 / f1)) :=
  convert_and_factor_pivot_formula 10 "Angstrom" "nm" "length" rfl rfl

/-- C2: `convert`'s complete error behaviour — the "units must be one of…"
`ValueError` (the spec's `UnknownUnitError`) exactly when a unit name is
unregistered, the "Cannot convert…" `ValueError` (the spec's
`IncompatibleUnitsError`) exactly when the two registered types differ,
and a total `Except.ok` result otherwise (no partial results); in
particular `convert x 'Angstrom' 'ps'` fails for every `x` and
`convert 1 'Angstrom' 'furlong'` fails with the unknown-unit error. -/
theorem convert_error_taxonomy :
    (∀ (x : ℚ) (u1 u2 : String),
       unit_types.lookup u1 = none ∨ unit_types.lookup u2 = none →
       convert x u1 u2 =
         Except.error (PyError.unknownUnit (unit_types.map Prod.fst) u1 u2)) ∧
    (∀ (x : ℚ) (u1 u2 t1 t2 : String),
       unit_types.lookup u1 = some t1 → unit_types.lookup u2 = some t2 →
       t1 ≠ t2 →
       convert x u1 u2 = Except.error (PyError.incompatibleUnits t1 t2)) ∧
    (∀ (x : ℚ) (u1 u2 t : String),
       unit_types.lookup u1 = some t → unit_types.lookup u2 = some t →
       ∃ y : ℚ, convert x u1 u2 = Except.ok y) ∧
    (∀ x : ℚ, convert x "Angstrom" "ps" =
       Except.error (PyError.incompatibleUnits "length" "time")) ∧
    convert 1 "Angstrom" "furlong" =
      Except.error
        (PyError.unknownUnit (unit_types.map Prod.fst) "Angstrom" "furlong") := by
  refine ⟨?_, ?_, ?_, fun x => rfl, rfl⟩
  · intro x u1 u2 h
    unfold convert
    rcases h with h | h
    · rw [h]
    · cases hu : unit_types.lookup u1 with
      | none => rw [h]
      | some t1 => rw [h]
  · intro x u1 u2 t1 t2 h1 h2 hne
    unfold convert
    rw [h1, h2]
    simp [hne]
  · intro x u1 u2 t h1 h2
    obtain ⟨tab, f1, ht, hu1, hf1⟩ := unit_types_sound u1 t h1
    obtain ⟨tab2, f2, ht2, hu2, hf2⟩ := unit_types_sound u2 t h2
    rw [ht] at ht2
    obtain rfl := Option.some.inj ht2
    exact ⟨x * (f2 / f1),
      convert_ok x (f2 / f1) u1 u2 t h1 h2
        (gcf_eval t u1 u2 tab f1 f2 ht hu1 hu2 hf1)⟩

/-- Witness for C2, instantiating the incompatible-types branch at
`convert(3, 'nm', 'ps')`. -/
theorem convert_error_taxonomy_witness :
    convert 3 "nm" "ps" =
      Except.error (PyError.incompatibleUnits "length" "time") :=
  convert_error_taxonomy.2.1 3 "nm" "ps" "length" "time" rfl rfl
    (by decide)

end units

namespace units

/-- C3: every registered unit's stored scale factor equals exactly the
contractual expression of spec section 4.1, computed from the same literal
inputs by the same (here exact) arithmetic — in particular the `Molar`
factor is exactly `1/(1e-27 * 6.02214179e+23)`, which exceeds agreement to
10 significant digits. -/
theorem unit_table_contract_values :
    lengthUnit_factor.lookup "nm" = some 0.1 ∧
    lengthUnit_factor.lookup "nanometer" = some 0.1 ∧
    lengthUnit_factor.lookup "Angstrom" = some 1.0 ∧
    lengthUnit_factor.lookup "A" = some 1.0 ∧
    lengthUnit_factor.lookup "Å" = some 1.0 ∧
    timeUnit_factor.lookup "ps" = some 1.0 ∧
    timeUnit_factor.lookup "ns" = some 1e-3 ∧
    timeUnit_factor.lookup "second" = some 1e-12 ∧
    timeUnit_factor.lookup "AKMA" = some (1/4.888821e-2) ∧
    densityUnit_factor.lookup "Angstrom^{-3}" = some 1.0 ∧
    densityUnit_factor.lookup "A^{-3}" = some 1.0 ∧
    densityUnit_factor.lookup "Å^{-3}" = some 1.0 ∧
    densityUnit_factor.lookup "nm^{-3}" = some 1000.0 ∧
    densityUnit_factor.lookup "nanometer^{-3}" = some 1000.0 ∧
    densityUnit_factor.lookup "Molar" = some (1/(1e-27 * 6.02214179e23)) ∧
    densityUnit_factor.lookup "SPC" =
      some (1/(1e-24 * 6.02214179e23 * 0.985 / 18.016)) ∧
    densityUnit_factor.lookup "TIP3P" =
      some (1/(1e-24 * 6.02214179e23 * 1.002 / 18.016)) ∧
    densityUnit_factor.lookup "TIP4P" =
      some (1/(1e-24 * 6.02214179e23 * 1.001 / 18.016)) ∧
    densityUnit_factor.lookup "water" =
      some (1/(1e-24 * 6.02214179e23 * 0.997 / 18.016)) := by
  refine ⟨?_, ?_, rfl, rfl, rfl, ?_, ?_, ?_, rfl, ?_, ?_, ?_, ?_, ?_,
    rfl, rfl, rfl, rfl, rfl⟩
  · rw [show lengthUnit_factor.lookup "nm" = some (1.0/10) from rfl]
    norm_num
  · rw [show lengthUnit_factor.lookup "nanometer" = some (1.0/10) from rfl]
    norm_num
  · rw [show timeUnit_factor.lookup "ps" = some (1/1.0) from rfl]
    norm_num
  · rw [show timeUnit_factor.lookup "ns" = some (1/1e3) from rfl]
    norm_num
  · rw [show timeUnit_factor.lookup "second" = some (1/1e12) from rfl]
    norm_num
  · rw [show densityUnit_factor.lookup "Angstrom^{-3}" = some (1/1.0)
      from rfl]
    norm_num
  · rw [show densityUnit_factor.lookup "A^{-3}" = some (1/1.0) from rfl]
    norm_num
  · rw [show densityUnit_factor.lookup "Å^{-3}" = some (1/1.0) from rfl]
    norm_num
  · rw [show densityUnit_factor.lookup "nm^{-3}" = some (1/1e-3) from rfl]
    norm_num
  · rw [show densityUnit_factor.lookup "nanometer^{-3}" = some (1/1e-3)
      from rfl]
    norm_num

/-- C7: the concrete scenarios of spec section 8. -/
theorem concrete_conversion_scenarios :
    convert 10.0 "Angstrom" "nm" = Except.ok 1.0 ∧
    convert 1.0 "nm" "Angstrom" = Except.ok 10.0 ∧
    convert 1.0 "ns" "ps" = Except.ok 1000.0 ∧
    convert 1.0 "ps" "second" = Except.ok 1e-12 ∧
    get_conversion_factor "density" "Angstrom^{-3}" "nm^{-3}" =
      Except.ok 1000.0 := by
  refine ⟨?_, ?_, ?_, ?_, ?_⟩
  · rw [convert_ok 10.0 ((1.0/10) / 1.0) "Angstrom" "nm" "length" rfl rfl
      (gcf_eval "length" "Angstrom" "nm" lengthUnit_factor 1.0 (1.0/10)
        rfl rfl rfl (by norm_num))]
    norm_num
  · rw [convert_ok 1.0 (1.0 / (1.0/10)) "nm" "Angstrom" "length" rfl rfl
      (gcf_eval "length" "nm" "Angstrom" lengthUnit_factor (1.0/10) 1.0
        rfl rfl rfl (by norm_num))]
    norm_num
  · rw [convert_ok 1.0 ((1/1.0) / (1/1e3)) "ns" "ps" "time" rfl rfl
      (gcf_eval "time" "ns" "ps" timeUnit_factor (1/1e3) (1/1.0)
        rfl rfl rfl (by norm_num))]
    norm_num
  · rw [convert_ok 1.0 ((1/1e12) / (1/1.0)) "ps" "second" "time" rfl rfl
      (gcf_eval "time" "ps" "second" timeUnit_factor (1/1.0) (1/1e12)
        rfl rfl rfl (by norm_num))]
    norm_num
  · rw [gcf_eval "density" "Angstrom^{-3}" "nm^{-3}" densityUnit_factor
      (1/1.0) (1/1e-3) rfl rfl rfl (by norm_num)]
    norm_num

/-- C4 counterexample: on the missing unit `furlong`, the factor lookup
fails with the bare `KeyError('furlong')`, whose payload carries no set of
known unit names — refuting the claim that the error carries the offending
name *and* the known-name set. -/
theorem factor_lookup_payload_counterexample :
    get_conversion_factor "length" "Angstrom" "furlong" =
      Except.error (PyError.keyError "furlong") ∧
    errorKnownNames (PyError.keyError "furlong") = none :=
  ⟨rfl, rfl⟩

/-- C4 (amended): for a registered quantity type `T`, the factor lookup
fails with a `KeyError` carrying only the offending unit name — first
`u2`, then `u1`, in Python's evaluation order — whenever that name is
absent from `T`'s table, and raises no other kind of error for a missing
unit name. -/
theorem factor_lookup_keyError :
    ∀ (T u1 u2 : String) (tab : List (String × ℚ)),
      conversion_factor.lookup T = some tab →
      (tab.lookup u2 = none →
        get_conversion_factor T u1 u2 =
          Except.error (PyError.keyError u2)) ∧
      (∀ f2 : ℚ, tab.lookup u2 = some f2 → tab.lookup u1 = none →
        get_conversion_factor T u1 u2 =
          Except.error (PyError.keyError u1)) := by
  intro T u1 u2 tab ht
  constructor
  · intro h2
    unfold get_conversion_factor
    rw [ht]
    dsimp only
    rw [h2]
  · intro f2 h2 h1
    unfold get_conversion_factor
    rw [ht]
    dsimp only
    rw [h2]
    dsimp only
    rw [h1]

/-- Witness for the amended C4 at the concrete missing name `furlong`. -/
theorem factor_lookup_keyError_witness :
    get_conversion_factor "length" "Angstrom" "furlong" =
      Except.error (PyError.keyError "furlong") :=
  (factor_lookup_keyError "length" "Angstrom" "furlong"
    lengthUnit_factor rfl).1 rfl

/-- C8: registry uniqueness — every registered unit name occurs in exactly
one quantity type's table, and the reverse index `unit_types` (built by
scanning all tables, where a later table would shadow an earlier binding)
maps each name to precisely its unique owning type; the registry is a
constant never mutated after construction, which the embedding renders by
these being plain definitions. -/
theorem registry_unique_ownership :
    ∀ p ∈ conversion_factor, ∀ q ∈ p.2,
      conversion_factor.countP (fun r => (r.2.lookup q.1).isSome) = 1 ∧
      unit_types.lookup q.1 = some p.1 := by
  intro p hp q hq
  simp only [conversion_factor, List.mem_cons, List.not_mem_nil, or_false]
    at hp
  rcases hp with rfl | rfl | rfl <;>
    simp only [lengthUnit_factor, densityUnit_factor, timeUnit_factor,
      List.mem_cons, List.not_mem_nil, or_false] at hq <;>
    rcases hq with rfl | rfl | rfl | rfl | rfl | rfl | rfl | rfl | rfl | rfl
      <;>
    exact ⟨rfl, rfl⟩

/-- Witness for C8 at the unit `Angstrom` of the `length` table. -/
theorem registry_unique_ownership_witness :
    conversion_factor.countP (fun r => (r.2.lookup "Angstrom").isSome) = 1 ∧
    unit_types.lookup "Angstrom" = some "length" :=
  registry_unique_ownership ("length", lengthUnit_factor)
    (List.mem_cons_self _ _) ("Angstrom", 1.0) (List.mem_cons_self _ _)

/-- C10: inside `convert`, the unchecked error branches are unreachable —
whenever both reverse-index lookups succeed with the same quantity type
`t`, the type's table exists, both units are bound in it, the divisor
`conversion_factor[t][u1]` is nonzero, `get_conversion_factor` returns a
value (no `KeyError`, no `ZeroDivisionError`), and `convert` succeeds. -/
theorem convert_internal_lookups_total :
    ∀ (x : ℚ) (u1 u2 t : String),
      unit_types.lookup u1 = some t → unit_types.lookup u2 = some t →
      ∃ (tab : List (String × ℚ)) (f1 f2 : ℚ),
        conversion_factor.lookup t = some tab ∧
        tab.lookup u1 = some f1 ∧ tab.lookup u2 = some f2 ∧
        f1 ≠ 0 ∧
        get_conversion_factor t u1 u2 = Except.ok (f2 / f1) ∧
        convert x u1 u2 = Except.ok (x * (f2 / f1)) := by
  intro x u1 u2 t h1 h2
  obtain ⟨tab, f1, ht, hu1, hf1⟩ := unit_types_sound u1 t h1
  obtain ⟨tab2, f2, ht2, hu2, hf2⟩ := unit_types_sound u2 t h2
  rw [ht] at ht2
  obtain rfl := Option.some.inj ht2
  have hg := gcf_eval t u1 u2 tab f1 f2 ht hu1 hu2 hf1
  exact ⟨tab, f1, f2, ht, hu1, hu2, hf1, hg,
    convert_ok x (f2 / f1) u1 u2 t h1 h2 hg⟩

/-- Witness for C10 at `convert(5, 'ns', 'second')`. -/
theorem convert_internal_lookups_total_witness :
    ∃ (tab : List (String × ℚ)) (f1 f2 : ℚ),
      conversion_factor.lookup "time" = some tab ∧
      tab.lookup "ns" = some f1 ∧ tab.lookup "second" = some f2 ∧
      f1 ≠ 0 ∧
      get_conversion_factor "time" "ns" "second" = Except.ok (f2 / f1) ∧
      convert 5 "ns" "second" = Except.ok (5 * (f2 / f1)) :=
  convert_internal_lookups_total 5 "ns" "second" "time" rfl rfl

end units

namespace H5MD

/-- C9: `H5MDReader._read_frame` fails unconditionally — for every reader
state and every frame index it immediately returns the `TypeError` saying
the class does not support direct frame indexing, produces no timestep,
and leaves the reader state unchanged. -/
theorem read_frame_unconditionally_raises :
    ∀ (Ts : Type) (r : H5MDReader Ts) (frame : Int),
      H5MDReader._read_frame r frame =
        (r, Except.error (H5MDError.typeError
          "H5MDReader does not support direct frame indexing.")) :=
  fun _ _ _ => rfl

end H5MD
